import Mathlib

/-!
Verification of the resource-loader composables of this repository:
the script-tag loader (`useScriptTag`), the style-tag loader (`useStyleTag`)
and the outside-click directive (`vOnClickOutside`).

The host environment is single-threaded and event-loop driven, so every
exported operation (`load`, `unload`, a DOM event firing, a reactive source
update) runs atomically; we model each one as a pure transition on an
explicit loader state.  Promises are entries of a heap `promises : List
(Nat × PromiseState)`; settling a promise is first-settlement-wins, exactly
as in the host language.  DOM elements live in a heap with a `connected`
flag standing for membership in `document.head` (the code only ever appends
to the head, in creation order, so first-match queries over the heap agree
with document-order queries).
-/

namespace Spec2Proof

namespace ScriptTag

/-- The options captured by `useScriptTag` at construction
(`src`, `type`, `async`, `defer`, `crossOrigin`, `referrerPolicy`,
`noModule`, `nonce`, `attrs`); `document` presence is part of the state. -/
structure ScriptTagConfig where
  src : String
  typ : String := "text/javascript"
  async : Bool := true
  defer : Bool := false
  crossOrigin : Option String := none
  referrerPolicy : Option String := none
  noModule : Bool := false
  nonce : Option String := none
  attrs : List (String × String) := []
deriving Repr, DecidableEq

/-- A `<script>` element.  `connected = true` means the element is attached
to `document.head`; `attrs` holds attributes set through `setAttribute`,
including the `data-loaded` marker the load listener writes. -/
structure ScriptEl where
  elId : Nat
  src : String
  typ : String
  async : Bool
  defer : Bool
  crossOrigin : Option String
  referrerPolicy : Option String
  noModule : Bool
  nonce : Option String
  attrs : List (String × String)
  connected : Bool
deriving Repr, DecidableEq

/-- `el.hasAttribute name` -/
def hasAttr (e : ScriptEl) (name : String) : Bool :=
  e.attrs.any (fun a => a.1 == name)

/-- `el.setAttribute name value` (upsert). -/
def setAttr (e : ScriptEl) (name value : String) : ScriptEl :=
  if e.attrs.any (fun a => a.1 == name) then
    { e with attrs := e.attrs.map (fun a => if a.1 == name then (a.1, value) else a) }
  else
    { e with attrs := e.attrs ++ [(name, value)] }

/-- Outcome value carried by a fulfilled load promise: either the script
element or the `false` sentinel used when no document exists. -/
inductive PValue where
  | el (elId : Nat)
  | bool (b : Bool)
deriving Repr, DecidableEq

/-- DOM events the registered listeners react to. -/
inductive DomEvent where
  | load
  | error
  | abort
deriving Repr, DecidableEq

/-- State of one promise: pending, fulfilled with a value, or rejected with
the event passed to `reject`. -/
inductive PromiseState where
  | pending
  | fulfilled (v : PValue)
  | rejected (ev : DomEvent)
deriving Repr, DecidableEq

def isPending : PromiseState → Bool
  | .pending => true
  | _ => false

/-- Settle one promise-heap entry: first settlement wins, later `resolve` or
`reject` calls on an already settled promise are no-ops. -/
def settleEntry (pid : Nat) (result : PromiseState) (q : Nat × PromiseState) :
    Nat × PromiseState :=
  if q.1 == pid && isPending q.2 then (q.1, result) else q

def settle (ps : List (Nat × PromiseState)) (pid : Nat) (result : PromiseState) :
    List (Nat × PromiseState) :=
  ps.map (settleEntry pid result)

/-- Full state of one `useScriptTag` instance together with its document.
`scriptTag` is the exposed shallow ref, `_promise` the memoized pending
promise, `listeners` the `(element, promise)` pairs wired by
`useEventListener`, `onLoadedCalls` the log of `onLoaded` invocations. -/
structure ScriptLoaderState where
  hasDoc : Bool
  elems : List ScriptEl
  scriptTag : Option Nat
  «_promise» : Option Nat
  promises : List (Nat × PromiseState)
  listeners : List (Nat × Nat)
  onLoadedCalls : List Nat
  nextElId : Nat
  nextPid : Nat
deriving Repr, DecidableEq

/-- `document.querySelector` on the script src selector: first document-connected
script whose `src` matches. -/
def querySelectorSrc (s : ScriptLoaderState) (src : String) : Option ScriptEl :=
  s.elems.find? (fun e => e.connected && e.src == src)

/-- The element built by the `document.createElement` branch of
`loadScript`, before it is appended. -/
def createScriptEl (cfg : ScriptTagConfig) (eid : Nat) : ScriptEl :=
  { elId := eid
    src := cfg.src
    typ := cfg.typ
    async := cfg.async
    defer := cfg.defer
    crossOrigin := cfg.crossOrigin
    referrerPolicy := cfg.referrerPolicy
    noModule := cfg.noModule
    nonce := match cfg.nonce with
      | some n => if n == "" then none else some n
      | none => none
    attrs := cfg.attrs
    connected := false }

/-- `document.head.appendChild el` -/
def connectEl (elems : List ScriptEl) (eid : Nat) : List ScriptEl :=
  elems.map (fun e => if e.elId == eid then { e with connected := true } else e)

/-- `document.head.removeChild el` -/
def disconnectEl (elems : List ScriptEl) (eid : Nat) : List ScriptEl :=
  elems.map (fun e => if e.elId == eid then { e with connected := false } else e)

/-- `el.setAttribute name value` on the element `eid` of the heap. -/
def setAttrOnEl (elems : List ScriptEl) (eid : Nat) (name value : String) :
    List ScriptEl :=
  elems.map (fun e => if e.elId == eid then setAttr e name value else e)

/-- The `resolveWithElement` closure: store the element in the `scriptTag`
ref, then resolve the promise with it (a no-op if already settled). -/
def resolveWithElement (s : ScriptLoaderState) (pid eid : Nat) : ScriptLoaderState :=
  { s with
    scriptTag := some eid
    promises := settle s.promises pid (.fulfilled (.el eid)) }

/-- The executor of `loadScript`: runs synchronously inside `new Promise`,
returns the fresh promise id and the new state.  Mirrors the source:
missing document resolves `false`; an existing element with `data-loaded`
resolves immediately; otherwise an element may be created; listeners are
registered; a created element is appended; with `waitForScriptLoad = false`
the promise is resolved right away with the element. -/
def loadScript (cfg : ScriptTagConfig) (waitForScriptLoad : Bool)
    (s : ScriptLoaderState) : Nat × ScriptLoaderState :=
  let pid := s.nextPid
  let s1 : ScriptLoaderState :=
    { s with promises := s.promises ++ [(pid, .pending)], nextPid := pid + 1 }
  if s1.hasDoc then
    match querySelectorSrc s1 cfg.src with
    | none =>
        let eid := s1.nextElId
        let s2 : ScriptLoaderState :=
          { s1 with
            elems := s1.elems ++ [createScriptEl cfg eid]
            nextElId := eid + 1 }
        let s3 : ScriptLoaderState := { s2 with listeners := s2.listeners ++ [(eid, pid)] }
        let s4 : ScriptLoaderState := { s3 with elems := connectEl s3.elems eid }
        if waitForScriptLoad then (pid, s4) else (pid, resolveWithElement s4 pid eid)
    | some el =>
        let s2 := if hasAttr el "data-loaded" then resolveWithElement s1 pid el.elId else s1
        let s3 : ScriptLoaderState := { s2 with listeners := s2.listeners ++ [(el.elId, pid)] }
        if waitForScriptLoad then (pid, s3) else (pid, resolveWithElement s3 pid el.elId)
  else
    (pid, { s1 with promises := settle s1.promises pid (.fulfilled (.bool false)) })

/-- The exposed memoized `load`: reuse `_promise` when set, otherwise run
`loadScript` and cache the promise it produced. -/
def load (cfg : ScriptTagConfig) (waitForScriptLoad : Bool)
    (s : ScriptLoaderState) : Nat × ScriptLoaderState :=
  match s._promise with
  | some pid => (pid, s)
  | none =>
      let r := loadScript cfg waitForScriptLoad s
      (r.1, { r.2 with _promise := some r.1 })

/-- The exposed `unload`: no-op without a document; otherwise clear
`_promise` and the `scriptTag` ref, and remove the matching script element
from the document head if one is found. -/
def unload (cfg : ScriptTagConfig) (s : ScriptLoaderState) : ScriptLoaderState :=
  if s.hasDoc then
    let s1 : ScriptLoaderState := { s with _promise := none }
    let s2 : ScriptLoaderState :=
      { s1 with scriptTag := if s1.scriptTag.isSome then none else s1.scriptTag }
    match querySelectorSrc s2 cfg.src with
    | some el => { s2 with elems := disconnectEl s2.elems el.elId }
    | none => s2
  else
    s

/-- The effect of one registered listener when event `ev` fires on its
element: `load` marks `data-loaded`, calls `onLoaded` and resolves with the
element; `error`/`abort` reject with the event. -/
def handleListener (ev : DomEvent) (entry : Nat × Nat) (s : ScriptLoaderState) :
    ScriptLoaderState :=
  match ev with
  | .load =>
      let s1 : ScriptLoaderState :=
        { s with elems := setAttrOnEl s.elems entry.1 "data-loaded" "true" }
      let s2 : ScriptLoaderState := { s1 with onLoadedCalls := s1.onLoadedCalls ++ [entry.1] }
      resolveWithElement s2 entry.2 entry.1
  | .error => { s with promises := settle s.promises entry.2 (.rejected .error) }
  | .abort => { s with promises := settle s.promises entry.2 (.rejected .abort) }

/-- Event `ev` fires on element `eid`: run every listener registered on that
element, in registration order. -/
def fireEvent (s : ScriptLoaderState) (eid : Nat) (ev : DomEvent) : ScriptLoaderState :=
  (s.listeners.filter (fun l => l.1 == eid)).foldl
    (fun st l => handleListener ev l st) s

/-- State of a fresh `useScriptTag` instance. -/
def initState (hasDoc : Bool) : ScriptLoaderState :=
  { hasDoc := hasDoc
    elems := []
    scriptTag := none
    «_promise» := none
    promises := []
    listeners := []
    onLoadedCalls := []
    nextElId := 0
    nextPid := 0 }

/-- State of the promise `pid` in the heap. -/
def promiseStateOf (s : ScriptLoaderState) (pid : Nat) : Option PromiseState :=
  (s.promises.find? (fun q => q.1 == pid)).map (fun q => q.2)

/-- Whether element `eid` is attached to the document. -/
def elemConnected (s : ScriptLoaderState) (eid : Nat) : Bool :=
  s.elems.any (fun e => e.elId == eid && e.connected)

/-- Iterated `load` calls; returns the promises handed back, in order. -/
def loadSeq (cfg : ScriptTagConfig) (ws : List Bool) (s : ScriptLoaderState) :
    List Nat × ScriptLoaderState :=
  match ws with
  | [] => ([], s)
  | w :: rest =>
      let r := load cfg w s
      let r2 := loadSeq cfg rest r.2
      (r.1 :: r2.1, r2.2)

end ScriptTag

/-! ### Concrete instances used to exercise the theorems on closed inputs -/

/-- A concrete script-tag configuration. -/
def cfg0 : ScriptTag.ScriptTagConfig := { src := "https://example.com/lib.js" }

/-- A fresh loader instance living in a browser context. -/
def s0T : ScriptTag.ScriptLoaderState := ScriptTag.initState true

/-- A fresh loader instance in a documentless (server-side) context. -/
def s0F : ScriptTag.ScriptLoaderState := ScriptTag.initState false

/-! ### The style-tag loader (src/packages/core/useStyleTag/index.ts) -/

namespace StyleTag

/-- The options captured by `useStyleTag` at construction (`id`, `nonce`,
`media`); `document` presence is part of the state. -/
structure StyleTagConfig where
  id : String
  nonce : Option String := none
  media : Option String := none
deriving Repr, DecidableEq

/-- A `<style>` element: heap key, DOM id, `textContent`, attachment to
`document.head`, and the optional `nonce`/`media` attributes. -/
structure StyleEl where
  key : Nat
  domId : String
  text : String
  connected : Bool
  nonce : Option String
  media : Option String
deriving Repr, DecidableEq

/-- State of one `useStyleTag` instance: the style-element heap, the
reactive `css` ref, the `isLoaded` flag, and the active watcher (`some k`
when the watcher installed by `load` is pushing into element `k`; `none`
after `stop()`). -/
structure StyleLoaderState where
  hasDoc : Bool
  styles : List StyleEl
  cssRef : String
  isLoaded : Bool
  watcher : Option Nat
  nextKey : Nat
deriving Repr, DecidableEq

/-- `document.getElementById id` (only attached elements are reachable). -/
def getElementById (s : StyleLoaderState) (id : String) : Option StyleEl :=
  s.styles.find? (fun e => e.connected && e.domId == id)

/-- `el.textContent = v` on the element with heap key `k`. -/
def setTextOn (styles : List StyleEl) (k : Nat) (v : String) : List StyleEl :=
  styles.map (fun e => if e.key == k then { e with text := v } else e)

/-- `document.head.removeChild el` -/
def disconnectStyle (styles : List StyleEl) (k : Nat) : List StyleEl :=
  styles.map (fun e => if e.key == k then { e with connected := false } else e)

/-- The exposed `load`: no-op without a document; reuse the element found by
id or create, configure and append a new one; if not yet loaded, start the
watcher (whose `immediate` run writes the current `css` value into the
element) and set `isLoaded`. -/
def load (cfg : StyleTagConfig) (s : StyleLoaderState) : StyleLoaderState :=
  if s.hasDoc then
    match getElementById s cfg.id with
    | some el =>
        if s.isLoaded then s
        else
          { s with
              watcher := some el.key
              styles := setTextOn s.styles el.key s.cssRef
              isLoaded := true }
    | none =>
        let el : StyleEl :=
          { key := s.nextKey, domId := cfg.id, text := "", connected := true,
            nonce := cfg.nonce, media := cfg.media }
        let s1 : StyleLoaderState :=
          { s with styles := s.styles ++ [el], nextKey := s.nextKey + 1 }
        if s1.isLoaded then s1
        else
          { s1 with
              watcher := some el.key
              styles := setTextOn s1.styles el.key s1.cssRef
              isLoaded := true }
  else s

/-- Assignment to the reactive `css` ref: a genuinely new value triggers the
watcher, which writes it into the watched element, if the watcher is
active. -/
def cssSet (v : String) (s : StyleLoaderState) : StyleLoaderState :=
  if v == s.cssRef then s
  else
    let s1 : StyleLoaderState := { s with cssRef := v }
    match s1.watcher with
    | some k => { s1 with styles := setTextOn s1.styles k v }
    | none => s1

/-- The exposed `unload`: no-op without a document or when not loaded;
otherwise stop the watcher, remove the element found by id from the head,
and reset `isLoaded`. -/
def unload (cfg : StyleTagConfig) (s : StyleLoaderState) : StyleLoaderState :=
  if s.hasDoc && s.isLoaded then
    let s1 : StyleLoaderState := { s with watcher := none }
    let s2 : StyleLoaderState :=
      match getElementById s1 cfg.id with
      | some el => { s1 with styles := disconnectStyle s1.styles el.key }
      | none => s1
    { s2 with isLoaded := false }
  else s

/-- `textContent` of the element with heap key `k`. -/
def styleTextOf (s : StyleLoaderState) (k : Nat) : Option String :=
  (s.styles.find? (fun e => e.key == k)).map (fun e => e.text)

/-- State of a fresh `useStyleTag` instance over the initial `css` value. -/
def initStyle (hasDoc : Bool) (css : String) : StyleLoaderState :=
  { hasDoc := hasDoc, styles := [], cssRef := css, isLoaded := false,
    watcher := none, nextKey := 0 }

end StyleTag

/-! ### The outside-click directive (src/packages/core/onClickOutside/directive.ts) -/

namespace ClickOut

/-- An active outside-click registration held by the detection primitive:
its identifier, the target element, the handler, the dispatch-phase flag
passed as `capture`, and the abstract extra options of the array form. -/
structure Reg where
  regId : Nat
  target : Nat
  handlerId : Nat
  capture : Bool
  extraOpts : Option Nat
deriving Repr, DecidableEq

/-- The set of active registrations of the detection primitive. -/
structure World where
  regs : List Reg
  nextRegId : Nat
deriving Repr, DecidableEq

/-- Modelled from the spec: the wrapped outside-click detection primitive
`onClickOutside` (its implementation, packages/core/onClickOutside/index.ts,
is not among the sources; the directive file only imports it).  Per the
spec it registers the handler with the requested dispatch phase and returns
a cancellation function, modelled as the fresh registration identifier. -/
def onClickOutside (target handlerId : Nat) (capture : Bool)
    (extraOpts : Option Nat) (w : World) : Nat × World :=
  (w.nextRegId,
   { regs := w.regs ++
       [{ regId := w.nextRegId, target := target, handlerId := handlerId,
          capture := capture, extraOpts := extraOpts }]
     nextRegId := w.nextRegId + 1 })

/-- Modelled from the spec: invoking the cancellation function returned by
`onClickOutside` removes that registration. -/
def invokeStop (rid : Nat) (w : World) : World :=
  { w with regs := w.regs.filter (fun r => !(r.regId == rid)) }

/-- The `__onClickOutside_stop` slot the directive stores on the element. -/
structure ElSlot where
  stop : Option Nat
deriving Repr, DecidableEq

/-- The directive binding: the `bubble` modifier flag and the value, which
is either a bare handler (`opts = none`) or a `[handler, options]` pair
(`opts = some payload`). -/
structure Binding where
  bubble : Bool
  handlerId : Nat
  opts : Option Nat
deriving Repr, DecidableEq

/-- The `mounted` hook of `vOnClickOutside`: derive `capture` from the
absence of the `bubble` modifier, register through `onClickOutside`
(merging `capture` with the options in the array form), and store the
returned cancellation function on the element. -/
def mounted (elId : Nat) (b : Binding) (w : World) : ElSlot × World :=
  let capture := !b.bubble
  match b.opts with
  | none =>
      let r := onClickOutside elId b.handlerId capture none w
      ({ stop := some r.1 }, r.2)
  | some payload =>
      let r := onClickOutside elId b.handlerId capture (some payload) w
      ({ stop := some r.1 }, r.2)

/-- The `unmounted` hook of `vOnClickOutside`: invoke the stored
cancellation function. -/
def unmounted (el : ElSlot) (w : World) : World :=
  match el.stop with
  | some rid => invokeStop rid w
  | none => w

end ClickOut

/-! ### Further concrete instances for closed-input witnesses -/

/-- The loader state after a first `load(true)` followed by the readiness
event: element 0 is attached and marked `data-loaded`. -/
def sW : ScriptTag.ScriptLoaderState :=
  ScriptTag.fireEvent (ScriptTag.load cfg0 true s0T).2 0 ScriptTag.DomEvent.load

/-- A script element for `cfg0` already attached and marked ready. -/
def el6 : ScriptTag.ScriptEl :=
  { elId := 0, src := "https://example.com/lib.js", typ := "text/javascript",
    async := true, defer := false, crossOrigin := none, referrerPolicy := none,
    noModule := false, nonce := none, attrs := [("data-loaded", "true")],
    connected := true }

/-- A loader state that observes `el6` in the document but has no cached
promise of its own. -/
def s6 : ScriptTag.ScriptLoaderState :=
  { hasDoc := true, elems := [el6], scriptTag := none, «_promise» := none,
    promises := [], listeners := [], onLoadedCalls := [], nextElId := 1,
    nextPid := 0 }

/-- A concrete style-tag configuration. -/
def cfgS : StyleTag.StyleTagConfig := { id := "vueuse_styletag_1" }

/-- A fresh style-tag instance in a browser context. -/
def sS0 : StyleTag.StyleLoaderState := StyleTag.initStyle true "p color red"

/-- The style-tag instance after `load`. -/
def sS1 : StyleTag.StyleLoaderState := StyleTag.load cfgS sS0

/-- An empty outside-click world and a bare-handler binding without the
`bubble` modifier. -/
def wC0 : ClickOut.World := { regs := [], nextRegId := 0 }

def bC0 : ClickOut.Binding := { bubble := false, handlerId := 7, opts := none }

/-! ### Generic list lemmas used by several loaders -/

/-- If a predicate holds in at most one position of a list, every member
satisfying it equals the element `find?` returns. -/
theorem eq_find_of_countP_le_one {α : Type} (p : α → Bool) :
    ∀ (l : List α) (a0 : α), l.countP p ≤ 1 → l.find? p = some a0 →
      ∀ a ∈ l, p a = true → a = a0 := by
  intro l
  induction l with
  | nil => intro a0 _ hfind a ha; cases ha
  | cons b t ih =>
    intro a0 hcount hfind a ha hpa
    cases hpb : p b with
    | true =>
      rw [List.find?_cons_of_pos _ hpb] at hfind
      have hcount2 : t.countP p = 0 := by
        rw [List.countP_cons_of_pos _ _ hpb] at hcount
        omega
      have hnone := List.countP_eq_zero.mp hcount2
      rcases List.mem_cons.mp ha with h | h
      · rw [h]; exact Option.some.inj hfind
      · exact absurd hpa (by simpa using hnone a h)
    | false =>
      rw [List.find?_cons_of_neg _ (by simp [hpb])] at hfind
      rw [List.countP_cons_of_neg _ _ (by simp [hpb])] at hcount
      rcases List.mem_cons.mp ha with h | h
      · rw [h] at hpa; rw [hpa] at hpb; cases hpb
      · exact ih a0 hcount hfind a h hpa

/-- Clearing, via `g`, the unique element of `l` satisfying `p` (where `g`
never makes `p` hold) leaves no element satisfying `p`. -/
theorem find?_map_eq_none_of_unique {α : Type} (p : α → Bool) (g : α → α)
    (l : List α) (a0 : α)
    (hg : ∀ a, p a = false → p (g a) = false)
    (h1 : l.countP p ≤ 1)
    (h2 : l.find? p = some a0)
    (h3 : p (g a0) = false) :
    (l.map g).find? p = none := by
  rw [List.find?_eq_none]
  intro x hx
  rcases List.mem_map.mp hx with ⟨a, ha, rfl⟩
  cases hpa : p a with
  | true =>
    have := eq_find_of_countP_le_one p l a0 h1 h2 a ha hpa
    rw [this, h3]; simp
  | false =>
    rw [hg a hpa]; simp

/-! ### The script-tag loader (src/packages/core/useScriptTag/index.ts) -/

namespace ScriptTag

/-! ### Helper lemmas about the promise heap and the loader -/

theorem settleEntry_fst (pid : Nat) (v : PromiseState) (q : Nat × PromiseState) :
    (settleEntry pid v q).1 = q.1 := by
  unfold settleEntry; split <;> rfl

theorem find_settle (ps : List (Nat × PromiseState)) (pid pid2 : Nat)
    (v : PromiseState) :
    (settle ps pid v).find? (fun q => q.1 == pid2) =
      (ps.find? (fun q => q.1 == pid2)).map (settleEntry pid v) := by
  unfold settle
  rw [List.find?_map]
  have hc : ((fun q : Nat × PromiseState => q.1 == pid2) ∘ settleEntry pid v) =
      (fun q : Nat × PromiseState => q.1 == pid2) := by
    funext q
    simp [Function.comp, settleEntry_fst]
  rw [hc]

theorem find_append_fresh (ps : List (Nat × PromiseState)) (pid : Nat)
    (st : PromiseState) (hfresh : ∀ q ∈ ps, q.1 < pid) :
    (ps ++ [(pid, st)]).find? (fun q => q.1 == pid) = some (pid, st) := by
  rw [List.find?_append]
  have h1 : ps.find? (fun q => q.1 == pid) = none := by
    rw [List.find?_eq_none]
    intro q hq
    simp only [beq_iff_eq]
    exact Nat.ne_of_lt (hfresh q hq)
  rw [h1]
  simp

theorem load_of_some (cfg : ScriptTagConfig) (w : Bool) (s : ScriptLoaderState)
    (p : Nat) (h : s._promise = some p) : load cfg w s = (p, s) := by
  unfold load; rw [h]

theorem load_promise_set (cfg : ScriptTagConfig) (w : Bool) (s : ScriptLoaderState)
    (h : s._promise = none) :
    (load cfg w s).2._promise = some (load cfg w s).1 := by
  unfold load; rw [h]

theorem loadSeq_of_some (cfg : ScriptTagConfig) (ws : List Bool)
    (s : ScriptLoaderState) (p : Nat) (h : s._promise = some p) :
    loadSeq cfg ws s = (ws.map (fun _ => p), s) := by
  induction ws with
  | nil => rfl
  | cons w rest ih =>
    unfold loadSeq
    rw [load_of_some cfg w s p h]
    simp only []
    rw [ih]
    simp

theorem handleListener_promiseRef (ev : DomEvent) (entry : Nat × Nat)
    (s : ScriptLoaderState) : (handleListener ev entry s)._promise = s._promise := by
  cases ev <;> rfl

theorem fireEvent_promiseRef (s : ScriptLoaderState) (eid : Nat) (ev : DomEvent) :
    (fireEvent s eid ev)._promise = s._promise := by
  unfold fireEvent
  generalize (s.listeners.filter (fun l => l.1 == eid)) = l
  induction l generalizing s with
  | nil => rfl
  | cons a t ih =>
    rw [List.foldl_cons]
    rw [ih (handleListener ev a s)]
    exact handleListener_promiseRef ev a s

end ScriptTag

namespace ScriptTag

/-- Characterization of `load` from a state with no cached promise, a
document, and no matching element in it: the create-and-append branch. -/
theorem load_create (cfg : ScriptTagConfig) (w : Bool) (s : ScriptLoaderState)
    (hdoc : s.hasDoc = true) (hp : s._promise = none)
    (hq : querySelectorSrc s cfg.src = none) :
    load cfg w s =
      (s.nextPid,
       { s with
          «_promise» := some s.nextPid
          scriptTag := if w then s.scriptTag else some s.nextElId
          promises :=
            if w then s.promises ++ [(s.nextPid, PromiseState.pending)]
            else settle (s.promises ++ [(s.nextPid, PromiseState.pending)]) s.nextPid
                   (.fulfilled (.el s.nextElId))
          listeners := s.listeners ++ [(s.nextElId, s.nextPid)]
          elems := connectEl (s.elems ++ [createScriptEl cfg s.nextElId]) s.nextElId
          nextElId := s.nextElId + 1
          nextPid := s.nextPid + 1 }) := by
  have hq2 : s.elems.find? (fun e => e.connected && e.src == cfg.src) = none := by
    simpa [querySelectorSrc] using hq
  unfold load
  rw [hp]
  simp only []
  unfold loadScript
  simp only [querySelectorSrc, hdoc, hq2]
  cases w <;> simp [resolveWithElement]

end ScriptTag

/-- Claim C1: for the script-tag loader, a first `load` call from a clean
state (a document, no cached promise, no matching element) creates exactly
one script element, and every further `load` call issued before `unload`
returns the very promise of the first call while leaving the state
untouched, so all callers share one promise and hence observe one outcome. -/
theorem c1_load_concurrent_memoized (cfg : ScriptTag.ScriptTagConfig)
    (w : Bool) (ws : List Bool) (s : ScriptTag.ScriptLoaderState)
    (hdoc : s.hasDoc = true) (hp : s._promise = none)
    (hq : ScriptTag.querySelectorSrc s cfg.src = none) :
    ((ScriptTag.load cfg w s).2.elems.length = s.elems.length + 1) ∧
    (ScriptTag.loadSeq cfg ws (ScriptTag.load cfg w s).2 =
      (ws.map (fun _ => (ScriptTag.load cfg w s).1), (ScriptTag.load cfg w s).2)) := by
  constructor
  · rw [ScriptTag.load_create cfg w s hdoc hp hq]
    simp [ScriptTag.connectEl]
  · exact ScriptTag.loadSeq_of_some cfg ws _ _ (ScriptTag.load_promise_set cfg w s hp)

/-- Witness for C1 on a closed input: one element created, three concurrent
calls all returned the first promise. -/
theorem c1_load_concurrent_memoized_witness :
    ((ScriptTag.load cfg0 true s0T).2.elems.length = s0T.elems.length + 1) ∧
    (ScriptTag.loadSeq cfg0 [false, true] (ScriptTag.load cfg0 true s0T).2 =
      ([false, true].map (fun _ => (ScriptTag.load cfg0 true s0T).1),
        (ScriptTag.load cfg0 true s0T).2)) :=
  c1_load_concurrent_memoized cfg0 true [false, true] s0T rfl rfl rfl

/-- Claim C10: once any `load` call has installed the cached promise, every
subsequent `load` — whatever its `waitForScriptLoad` argument, and whether
or not the promise has settled, and with DOM events fired in between (which
never touch the cache) — returns the identical promise and changes nothing. -/
theorem c10_load_always_returns_first_promise (cfg : ScriptTag.ScriptTagConfig) :
    (∀ s w p, s._promise = some p → ScriptTag.load cfg w s = (p, s)) ∧
    (∀ s eid ev, (ScriptTag.fireEvent s eid ev)._promise = s._promise) ∧
    (∀ s w, s._promise = none →
      (ScriptTag.load cfg w s).2._promise = some (ScriptTag.load cfg w s).1) := by
  refine ⟨?_, ?_, ?_⟩
  · intro s w p h
    exact ScriptTag.load_of_some cfg w s p h
  · intro s eid ev
    exact ScriptTag.fireEvent_promiseRef s eid ev
  · intro s w h
    exact ScriptTag.load_promise_set cfg w s h

/-- Witness for C10 on a closed input: after a first `load(true)` that has
already been resolved by the load event, `load(false)` still returns the
first promise and does not change the state. -/
theorem c10_load_always_returns_first_promise_witness :
    ScriptTag.load cfg0 false
        (ScriptTag.fireEvent (ScriptTag.load cfg0 true s0T).2 0 ScriptTag.DomEvent.load) =
      (0, ScriptTag.fireEvent (ScriptTag.load cfg0 true s0T).2 0 ScriptTag.DomEvent.load) :=
  (c10_load_always_returns_first_promise cfg0).1
    (ScriptTag.fireEvent (ScriptTag.load cfg0 true s0T).2 0 ScriptTag.DomEvent.load)
    false 0 (by decide)

namespace ScriptTag

theorem find_settle_append_fresh (ps : List (Nat × PromiseState)) (pid : Nat)
    (v : PromiseState) (hfresh : ∀ q ∈ ps, q.1 < pid) :
    (settle (ps ++ [(pid, PromiseState.pending)]) pid v).find? (fun q => q.1 == pid) =
      some (pid, v) := by
  rw [find_settle, find_append_fresh ps pid _ hfresh]
  simp [settleEntry, isPending]

/-- Characterization of `load` in a documentless context with no cached
promise: the promise is created and immediately fulfilled with `false`. -/
theorem load_nodoc (cfg : ScriptTagConfig) (w : Bool) (s : ScriptLoaderState)
    (hdoc : s.hasDoc = false) (hp : s._promise = none) :
    load cfg w s =
      (s.nextPid,
       { s with
          «_promise» := some s.nextPid
          promises := settle (s.promises ++ [(s.nextPid, PromiseState.pending)])
            s.nextPid (.fulfilled (.bool false))
          nextPid := s.nextPid + 1 }) := by
  unfold load
  rw [hp]
  simp only []
  unfold loadScript
  simp only [hdoc]
  simp

end ScriptTag

/-- Claim C3: without a host document, `load()` resolves its promise with
the `false` sentinel instead of rejecting, later `load()` calls keep
returning that same settled promise, and `unload()` performs no action. -/
theorem c3_nodoc_sentinel_and_noop_unload (cfg : ScriptTag.ScriptTagConfig)
    (w : Bool) (s : ScriptTag.ScriptLoaderState)
    (hdoc : s.hasDoc = false) (hp : s._promise = none)
    (hfresh : ∀ q ∈ s.promises, q.1 < s.nextPid) :
    (ScriptTag.promiseStateOf (ScriptTag.load cfg w s).2 (ScriptTag.load cfg w s).1 =
      some (.fulfilled (.bool false))) ∧
    (∀ w2, ScriptTag.load cfg w2 (ScriptTag.load cfg w s).2 =
      ((ScriptTag.load cfg w s).1, (ScriptTag.load cfg w s).2)) ∧
    (∀ t : ScriptTag.ScriptLoaderState, t.hasDoc = false → ScriptTag.unload cfg t = t) := by
  rw [ScriptTag.load_nodoc cfg w s hdoc hp]
  refine ⟨?_, ?_, ?_⟩
  · simp only [ScriptTag.promiseStateOf]
    rw [ScriptTag.find_settle_append_fresh s.promises s.nextPid _ hfresh]
    rfl
  · intro w2
    exact ScriptTag.load_of_some cfg w2 _ s.nextPid rfl
  · intro t ht
    unfold ScriptTag.unload
    simp [ht]

/-- Witness for C3 on a closed input: a documentless loader resolves with
`false`, re-`load` is a no-op, and `unload` does nothing. -/
theorem c3_nodoc_sentinel_and_noop_unload_witness :
    (ScriptTag.promiseStateOf (ScriptTag.load cfg0 true s0F).2 (ScriptTag.load cfg0 true s0F).1 =
      some (.fulfilled (.bool false))) ∧
    (ScriptTag.load cfg0 false (ScriptTag.load cfg0 true s0F).2 =
      ((ScriptTag.load cfg0 true s0F).1, (ScriptTag.load cfg0 true s0F).2)) ∧
    (ScriptTag.unload cfg0 s0F = s0F) := by
  have h := c3_nodoc_sentinel_and_noop_unload cfg0 true s0F rfl rfl (by decide)
  exact ⟨h.1, h.2.1 false, h.2.2 s0F rfl⟩

namespace ScriptTag

/-- Settling an already settled promise again is a no-op. -/
theorem settle_settle (ps : List (Nat × PromiseState)) (pid : Nat)
    (v v2 : PromiseState) (hv : isPending v = false) :
    settle (settle ps pid v) pid v2 = settle ps pid v := by
  unfold settle
  rw [List.map_map]
  have hc : (settleEntry pid v2 ∘ settleEntry pid v) = settleEntry pid v := by
    funext q
    simp only [Function.comp, settleEntry]
    by_cases h : (q.1 == pid && isPending q.2) = true
    · simp [h, hv]
    · simp [h]
  rw [hc]

/-- Characterization of `load` from a state with no cached promise when an
element with the requested `src` is already in the document. -/
theorem load_existing (cfg : ScriptTagConfig) (w : Bool) (s : ScriptLoaderState)
    (el : ScriptEl)
    (hdoc : s.hasDoc = true) (hp : s._promise = none)
    (hq : querySelectorSrc s cfg.src = some el) :
    load cfg w s =
      (s.nextPid,
       { s with
          «_promise» := some s.nextPid
          scriptTag := if hasAttr el "data-loaded" || !w then some el.elId else s.scriptTag
          promises :=
            if hasAttr el "data-loaded" || !w then
              settle (s.promises ++ [(s.nextPid, PromiseState.pending)]) s.nextPid
                (.fulfilled (.el el.elId))
            else s.promises ++ [(s.nextPid, PromiseState.pending)]
          listeners := s.listeners ++ [(el.elId, s.nextPid)]
          nextPid := s.nextPid + 1 }) := by
  have hq2 : s.elems.find? (fun e => e.connected && e.src == cfg.src) = some el := by
    simpa [querySelectorSrc] using hq
  unfold load
  rw [hp]
  simp only []
  unfold loadScript
  simp only [querySelectorSrc, hdoc, hq2]
  by_cases hdl : hasAttr el "data-loaded" = true
  · cases w <;>
      simp [hdl, resolveWithElement,
        settle_settle _ _ _ _ (by rfl : isPending (.fulfilled (.el el.elId)) = false)]
  · cases w <;> simp [eq_false_of_ne_true hdl, resolveWithElement]

end ScriptTag

/-- Claim C5: with a host document present, `load(false)` fulfills its
promise with a script element immediately — no readiness event is needed —
and that element is already attached to the document in the resulting
state. -/
theorem c5_no_wait_resolves_with_connected_element (cfg : ScriptTag.ScriptTagConfig)
    (s : ScriptTag.ScriptLoaderState)
    (hdoc : s.hasDoc = true) (hp : s._promise = none)
    (hfresh : ∀ q ∈ s.promises, q.1 < s.nextPid) :
    ∃ eid,
      ScriptTag.promiseStateOf (ScriptTag.load cfg false s).2 (ScriptTag.load cfg false s).1 =
        some (.fulfilled (.el eid)) ∧
      ScriptTag.elemConnected (ScriptTag.load cfg false s).2 eid = true := by
  cases hq : ScriptTag.querySelectorSrc s cfg.src with
  | none =>
    refine ⟨s.nextElId, ?_, ?_⟩
    · rw [ScriptTag.load_create cfg false s hdoc hp hq]
      simp only [ScriptTag.promiseStateOf, Bool.false_eq_true, if_false]
      rw [ScriptTag.find_settle_append_fresh s.promises s.nextPid _ hfresh]
      rfl
    · rw [ScriptTag.load_create cfg false s hdoc hp hq]
      simp [ScriptTag.elemConnected, ScriptTag.connectEl, ScriptTag.createScriptEl]
  | some el =>
    refine ⟨el.elId, ?_, ?_⟩
    · rw [ScriptTag.load_existing cfg false s el hdoc hp hq]
      simp only [Bool.not_false, Bool.or_true, if_true, ScriptTag.promiseStateOf]
      rw [ScriptTag.find_settle_append_fresh s.promises s.nextPid _ hfresh]
      rfl
    · rw [ScriptTag.load_existing cfg false s el hdoc hp hq]
      have hmem := List.mem_of_find?_eq_some
        (by simpa [ScriptTag.querySelectorSrc] using hq)
      have hpred := List.find?_some
        (by simpa [ScriptTag.querySelectorSrc] using hq)
      simp only [Bool.and_eq_true, beq_iff_eq] at hpred
      simp only [ScriptTag.elemConnected]
      rw [List.any_eq_true]
      exact ⟨el, hmem, by simp [hpred.1]⟩

/-- Witness for C5 on a closed input. -/
theorem c5_no_wait_resolves_with_connected_element_witness :
    ∃ eid,
      ScriptTag.promiseStateOf (ScriptTag.load cfg0 false s0T).2 (ScriptTag.load cfg0 false s0T).1 =
        some (.fulfilled (.el eid)) ∧
      ScriptTag.elemConnected (ScriptTag.load cfg0 false s0T).2 eid = true :=
  c5_no_wait_resolves_with_connected_element cfg0 s0T rfl rfl (by decide)

/-- Claim C6: if a script element with the requested `src` is already in the
document and carries `data-loaded`, `load` fulfills its promise with that
element at once, leaves the element heap untouched (no duplicate is created
or appended) and stores the element in the `scriptTag` ref, whatever the
`waitForScriptLoad` argument. -/
theorem c6_existing_ready_element_reused (cfg : ScriptTag.ScriptTagConfig)
    (w : Bool) (s : ScriptTag.ScriptLoaderState) (el : ScriptTag.ScriptEl)
    (hdoc : s.hasDoc = true) (hp : s._promise = none)
    (hfresh : ∀ q ∈ s.promises, q.1 < s.nextPid)
    (hq : ScriptTag.querySelectorSrc s cfg.src = some el)
    (hdl : ScriptTag.hasAttr el "data-loaded" = true) :
    ((ScriptTag.load cfg w s).2.elems = s.elems) ∧
    (ScriptTag.promiseStateOf (ScriptTag.load cfg w s).2 (ScriptTag.load cfg w s).1 =
      some (.fulfilled (.el el.elId))) ∧
    ((ScriptTag.load cfg w s).2.scriptTag = some el.elId) := by
  rw [ScriptTag.load_existing cfg w s el hdoc hp hq]
  refine ⟨rfl, ?_, ?_⟩
  · simp only [hdl, Bool.true_or, if_true, ScriptTag.promiseStateOf]
    rw [ScriptTag.find_settle_append_fresh s.promises s.nextPid _ hfresh]
    rfl
  · simp [hdl]

namespace ScriptTag

/-- The listeners registered before a fresh `load` never target the element
that `load` is about to create, so firing an event on the new element runs
exactly the newly registered listener. -/
theorem filter_listeners_fresh (l : List (Nat × Nat)) (eid pid : Nat)
    (hl : ∀ x ∈ l, x.1 < eid) :
    (l ++ [(eid, pid)]).filter (fun x => x.1 == eid) = [(eid, pid)] := by
  rw [List.filter_append]
  have h1 : l.filter (fun x => x.1 == eid) = [] := by
    rw [List.filter_eq_nil_iff]
    intro x hx
    simp only [beq_iff_eq]
    exact Nat.ne_of_lt (hl x hx)
  rw [h1]
  simp

end ScriptTag


namespace ScriptTag

theorem fireEvent_of_single (s1 : ScriptLoaderState) (eid pid : Nat) (ev : DomEvent)
    (h : s1.listeners.filter (fun x => x.1 == eid) = [(eid, pid)]) :
    fireEvent s1 eid ev = handleListener ev (eid, pid) s1 := by
  unfold fireEvent
  rw [h]
  rfl

end ScriptTag

/-- Claim C7: when the freshly created script element signals `error` or
`abort` while the load promise is still pending, that promise rejects with
the event; every later `load` call returns the same rejected promise with
the state unchanged (no retry), and a readiness event arriving afterwards
cannot overwrite the rejection. -/
theorem c7_error_or_abort_rejects (cfg : ScriptTag.ScriptTagConfig)
    (ev : ScriptTag.DomEvent) (s : ScriptTag.ScriptLoaderState)
    (hdoc : s.hasDoc = true) (hp : s._promise = none)
    (hq : ScriptTag.querySelectorSrc s cfg.src = none)
    (hfresh : ∀ q ∈ s.promises, q.1 < s.nextPid)
    (hl : ∀ x ∈ s.listeners, x.1 < s.nextElId)
    (hev : ev = ScriptTag.DomEvent.error ∨ ev = ScriptTag.DomEvent.abort) :
    (ScriptTag.promiseStateOf (ScriptTag.load cfg true s).2 (ScriptTag.load cfg true s).1 =
      some .pending) ∧
    (ScriptTag.promiseStateOf
        (ScriptTag.fireEvent (ScriptTag.load cfg true s).2 s.nextElId ev)
        (ScriptTag.load cfg true s).1 = some (.rejected ev)) ∧
    (∀ w2, ScriptTag.load cfg w2
        (ScriptTag.fireEvent (ScriptTag.load cfg true s).2 s.nextElId ev) =
      ((ScriptTag.load cfg true s).1,
        ScriptTag.fireEvent (ScriptTag.load cfg true s).2 s.nextElId ev)) ∧
    (ScriptTag.promiseStateOf
        (ScriptTag.fireEvent
          (ScriptTag.fireEvent (ScriptTag.load cfg true s).2 s.nextElId ev)
          s.nextElId ScriptTag.DomEvent.load)
        (ScriptTag.load cfg true s).1 = some (.rejected ev)) := by
  have hchar := ScriptTag.load_create cfg true s hdoc hp hq
  have hfst : (ScriptTag.load cfg true s).1 = s.nextPid := by rw [hchar]
  have hprom : (ScriptTag.load cfg true s).2.promises =
      s.promises ++ [(s.nextPid, ScriptTag.PromiseState.pending)] := by
    rw [hchar]; simp
  have hlist : (ScriptTag.load cfg true s).2.listeners =
      s.listeners ++ [(s.nextElId, s.nextPid)] := by
    rw [hchar]
  have hpr : (ScriptTag.load cfg true s).2._promise = some s.nextPid := by
    rw [hchar]
  have hfilter : (ScriptTag.load cfg true s).2.listeners.filter
      (fun x => x.1 == s.nextElId) = [(s.nextElId, s.nextPid)] := by
    rw [hlist]
    exact ScriptTag.filter_listeners_fresh s.listeners s.nextElId s.nextPid hl
  have hfire := ScriptTag.fireEvent_of_single (ScriptTag.load cfg true s).2
    s.nextElId s.nextPid ev hfilter
  have hreject : ScriptTag.handleListener ev (s.nextElId, s.nextPid)
      (ScriptTag.load cfg true s).2 =
      { (ScriptTag.load cfg true s).2 with
          promises := ScriptTag.settle (ScriptTag.load cfg true s).2.promises
            s.nextPid (.rejected ev) } := by
    rcases hev with h | h <;> rw [h] <;> rfl
  refine ⟨?_, ?_, ?_, ?_⟩
  · rw [hfst]
    simp only [ScriptTag.promiseStateOf, hprom]
    rw [ScriptTag.find_append_fresh s.promises s.nextPid _ hfresh]
    rfl
  · rw [hfst, hfire, hreject]
    simp only [ScriptTag.promiseStateOf, hprom]
    rw [ScriptTag.find_settle_append_fresh s.promises s.nextPid _ hfresh]
    rfl
  · intro w2
    rw [hfst]
    apply ScriptTag.load_of_some
    rw [hfire, hreject]
    simpa using hpr
  · rw [hfst, hfire, hreject]
    have hlist2 : ({ (ScriptTag.load cfg true s).2 with
        promises := ScriptTag.settle (ScriptTag.load cfg true s).2.promises
          s.nextPid (.rejected ev) } : ScriptTag.ScriptLoaderState).listeners.filter
        (fun x => x.1 == s.nextElId) = [(s.nextElId, s.nextPid)] := hfilter
    rw [ScriptTag.fireEvent_of_single _ s.nextElId s.nextPid ScriptTag.DomEvent.load hlist2]
    simp only [ScriptTag.handleListener, ScriptTag.resolveWithElement,
      ScriptTag.promiseStateOf]
    rw [hprom]
    rw [ScriptTag.settle_settle _ _ _ _ (by rfl : ScriptTag.isPending (.rejected ev) = false)]
    rw [ScriptTag.find_settle_append_fresh s.promises s.nextPid _ hfresh]
    rfl

/-- Witness for C7 on a closed input: an `error` event on the new element
rejects the promise; a later `load` call and a later readiness event change
neither the promise identity nor the rejection. -/
theorem c7_error_or_abort_rejects_witness :
    (ScriptTag.promiseStateOf (ScriptTag.load cfg0 true s0T).2 (ScriptTag.load cfg0 true s0T).1 =
      some .pending) ∧
    (ScriptTag.promiseStateOf
        (ScriptTag.fireEvent (ScriptTag.load cfg0 true s0T).2 s0T.nextElId ScriptTag.DomEvent.error)
        (ScriptTag.load cfg0 true s0T).1 = some (.rejected ScriptTag.DomEvent.error)) ∧
    (ScriptTag.load cfg0 false
        (ScriptTag.fireEvent (ScriptTag.load cfg0 true s0T).2 s0T.nextElId ScriptTag.DomEvent.error) =
      ((ScriptTag.load cfg0 true s0T).1,
        ScriptTag.fireEvent (ScriptTag.load cfg0 true s0T).2 s0T.nextElId ScriptTag.DomEvent.error)) ∧
    (ScriptTag.promiseStateOf
        (ScriptTag.fireEvent
          (ScriptTag.fireEvent (ScriptTag.load cfg0 true s0T).2 s0T.nextElId ScriptTag.DomEvent.error)
          s0T.nextElId ScriptTag.DomEvent.load)
        (ScriptTag.load cfg0 true s0T).1 = some (.rejected ScriptTag.DomEvent.error)) := by
  have h := c7_error_or_abort_rejects cfg0 ScriptTag.DomEvent.error s0T rfl rfl rfl
    (by decide) (by decide) (Or.inl rfl)
  exact ⟨h.1, h.2.1, h.2.2.1 false, h.2.2.2⟩

namespace ScriptTag

theorem opt_clear (o : Option Nat) : (if o.isSome then none else o) = none := by
  cases o <;> simp

/-- Characterization of `unload` when a document is present: the cached
promise and the `scriptTag` ref are cleared, and the first document-attached
element with the configured `src`, if any, is detached. -/
theorem unload_char (cfg : ScriptTagConfig) (s : ScriptLoaderState)
    (hdoc : s.hasDoc = true) :
    unload cfg s =
      { s with
          «_promise» := none
          scriptTag := none
          elems :=
            match s.elems.find? (fun e => e.connected && e.src == cfg.src) with
            | some el => disconnectEl s.elems el.elId
            | none => s.elems } := by
  unfold unload
  simp only [hdoc, querySelectorSrc, if_true]
  cases hq : s.elems.find? (fun e => e.connected && e.src == cfg.src) <;>
    simp [hq, opt_clear]

/-- After `unload` with a document present and at most one attached element
matching the `src`, no attached element matches the `src` any more. -/
theorem querySelector_after_unload (cfg : ScriptTagConfig) (s : ScriptLoaderState)
    (hdoc : s.hasDoc = true)
    (hcount : s.elems.countP (fun e => e.connected && e.src == cfg.src) ≤ 1) :
    querySelectorSrc (unload cfg s) cfg.src = none := by
  rw [unload_char cfg s hdoc]
  simp only [querySelectorSrc]
  cases hq : s.elems.find? (fun e => e.connected && e.src == cfg.src) with
  | none => simp [hq]
  | some el =>
    simp only [hq]
    unfold disconnectEl
    apply Spec2Proof.find?_map_eq_none_of_unique _ _ s.elems el _ hcount hq
    · by_cases h : (el.elId == el.elId) = true
      · simp [h]
      · simp at h
    · intro a ha
      by_cases h : (a.elId == el.elId) = true
      · simp [h]
      · simp [h, ha]

end ScriptTag

/-- Claim C2: with a document present and at most one attached element for
the configured `src`, `unload()` clears the cached promise and the
`scriptTag` handle and detaches the element, so a following `load()` runs
the create branch: it makes one brand-new script element (a fresh identity
none of the old elements carry) and a brand-new promise. -/
theorem c2_unload_then_load_is_fresh (cfg : ScriptTag.ScriptTagConfig)
    (w : Bool) (s : ScriptTag.ScriptLoaderState)
    (hdoc : s.hasDoc = true)
    (hcount : s.elems.countP (fun e => e.connected && e.src == cfg.src) ≤ 1)
    (helfresh : ∀ e ∈ s.elems, e.elId < s.nextElId) :
    ((ScriptTag.unload cfg s)._promise = none) ∧
    ((ScriptTag.unload cfg s).scriptTag = none) ∧
    (ScriptTag.querySelectorSrc (ScriptTag.unload cfg s) cfg.src = none) ∧
    ((ScriptTag.load cfg w (ScriptTag.unload cfg s)).1 = s.nextPid) ∧
    ((ScriptTag.load cfg w (ScriptTag.unload cfg s)).2.elems.length = s.elems.length + 1) ∧
    (∃ e ∈ (ScriptTag.load cfg w (ScriptTag.unload cfg s)).2.elems,
      e.elId = s.nextElId ∧ e.connected = true ∧ e.src = cfg.src) ∧
    (∀ e ∈ s.elems, e.elId ≠ s.nextElId) ∧
    (∀ pid, s._promise = some pid → pid < s.nextPid →
      (ScriptTag.load cfg w (ScriptTag.unload cfg s)).1 ≠ pid) := by
  have hq := ScriptTag.querySelector_after_unload cfg s hdoc hcount
  have hdoc2 : (ScriptTag.unload cfg s).hasDoc = true := by
    rw [ScriptTag.unload_char cfg s hdoc]; exact hdoc
  have hp2 : (ScriptTag.unload cfg s)._promise = none := by
    rw [ScriptTag.unload_char cfg s hdoc]
  have hchar := ScriptTag.load_create cfg w (ScriptTag.unload cfg s) hdoc2 hp2 hq
  have hlen : (ScriptTag.unload cfg s).elems.length = s.elems.length := by
    rw [ScriptTag.unload_char cfg s hdoc]
    cases hq2 : s.elems.find? (fun e => e.connected && e.src == cfg.src) <;>
      simp [hq2, ScriptTag.disconnectEl]
  have hnids : (ScriptTag.unload cfg s).nextElId = s.nextElId := by
    rw [ScriptTag.unload_char cfg s hdoc]
  have hnpid : (ScriptTag.unload cfg s).nextPid = s.nextPid := by
    rw [ScriptTag.unload_char cfg s hdoc]
  refine ⟨hp2, ?_, hq, ?_, ?_, ?_, ?_, ?_⟩
  · rw [ScriptTag.unload_char cfg s hdoc]
  · rw [hchar, hnpid]
  · rw [hchar]
    simp [ScriptTag.connectEl, hlen]
  · rw [hchar]
    refine ⟨{ ScriptTag.createScriptEl cfg ((ScriptTag.unload cfg s).nextElId) with
        connected := true }, ?_, by simp [ScriptTag.createScriptEl, hnids], rfl,
      by simp [ScriptTag.createScriptEl]⟩
    simp only [ScriptTag.connectEl, List.map_append]
    apply List.mem_append_right
    simp [ScriptTag.createScriptEl]
  · intro e he
    exact Nat.ne_of_lt (helfresh e he)
  · intro pid _ hlt
    rw [hchar, hnpid]
    exact Nat.ne_of_gt hlt

/-- Witness for C2 on a closed input: after a completed load, `unload` then
`load` resets the handles and produces a fresh element and a fresh promise. -/
theorem c2_unload_then_load_is_fresh_witness :
    ((ScriptTag.unload cfg0 sW)._promise = none) ∧
    ((ScriptTag.unload cfg0 sW).scriptTag = none) ∧
    (ScriptTag.querySelectorSrc (ScriptTag.unload cfg0 sW) cfg0.src = none) ∧
    ((ScriptTag.load cfg0 true (ScriptTag.unload cfg0 sW)).1 = sW.nextPid) ∧
    ((ScriptTag.load cfg0 true (ScriptTag.unload cfg0 sW)).2.elems.length =
      sW.elems.length + 1) ∧
    (∃ e ∈ (ScriptTag.load cfg0 true (ScriptTag.unload cfg0 sW)).2.elems,
      e.elId = sW.nextElId ∧ e.connected = true ∧ e.src = cfg0.src) ∧
    ((ScriptTag.load cfg0 true (ScriptTag.unload cfg0 sW)).1 ≠ 0) := by
  have h := c2_unload_then_load_is_fresh cfg0 true sW rfl (by decide) (by decide)
  exact ⟨h.1, h.2.1, h.2.2.1, h.2.2.2.1, h.2.2.2.2.1, h.2.2.2.2.2.1,
    h.2.2.2.2.2.2.2 0 (by decide) (by decide)⟩

/-- Witness for C6 on a closed input: a ready element with the requested
`src` is reused, nothing is created or appended. -/
theorem c6_existing_ready_element_reused_witness :
    ((ScriptTag.load cfg0 true s6).2.elems = s6.elems) ∧
    (ScriptTag.promiseStateOf (ScriptTag.load cfg0 true s6).2 (ScriptTag.load cfg0 true s6).1 =
      some (.fulfilled (.el el6.elId))) ∧
    ((ScriptTag.load cfg0 true s6).2.scriptTag = some el6.elId) :=
  c6_existing_ready_element_reused cfg0 true s6 el6 rfl rfl (by decide)
    (by decide) (by decide)

/-- Counterexample to C4 as stated: in a documentless context a `load()`
call caches a promise, and `unload()` — an early-returning no-op there —
does not reset it.  So "unload() always resets the pending promise" fails
at this concrete input. -/
theorem c4_unload_always_resets_counterexample :
    ((ScriptTag.load cfg0 true s0F).2._promise = some 0) ∧
    (ScriptTag.unload cfg0 (ScriptTag.load cfg0 true s0F).2 =
      (ScriptTag.load cfg0 true s0F).2) ∧
    ¬ ((ScriptTag.unload cfg0 (ScriptTag.load cfg0 true s0F).2)._promise = none) := by
  decide

/-- Claim C4, amended: whenever a host document is present `unload()` resets
the memoized pending promise, and no other operation does — `load()` never
leaves it empty and never replaces a cached promise, and DOM events never
touch it. -/
theorem c4_pending_cleared_exactly_on_unload (cfg : ScriptTag.ScriptTagConfig) :
    (∀ s : ScriptTag.ScriptLoaderState, s.hasDoc = true →
      (ScriptTag.unload cfg s)._promise = none) ∧
    (∀ (s : ScriptTag.ScriptLoaderState) (w : Bool),
      ¬ ((ScriptTag.load cfg w s).2._promise = none)) ∧
    (∀ (s : ScriptTag.ScriptLoaderState) (w : Bool) (p : Nat),
      s._promise = some p → (ScriptTag.load cfg w s).2._promise = some p) ∧
    (∀ (s : ScriptTag.ScriptLoaderState) (eid : Nat) (ev : ScriptTag.DomEvent),
      (ScriptTag.fireEvent s eid ev)._promise = s._promise) := by
  refine ⟨?_, ?_, ?_, ?_⟩
  · intro s hdoc
    rw [ScriptTag.unload_char cfg s hdoc]
  · intro s w
    cases hp : s._promise with
    | none => rw [ScriptTag.load_promise_set cfg w s hp]; simp
    | some p => rw [ScriptTag.load_of_some cfg w s p hp]; simp [hp]
  · intro s w p hp
    rw [ScriptTag.load_of_some cfg w s p hp]
    exact hp
  · intro s eid ev
    exact ScriptTag.fireEvent_promiseRef s eid ev

/-- Witness for the amended C4 on closed inputs. -/
theorem c4_pending_cleared_exactly_on_unload_witness :
    ((ScriptTag.unload cfg0 s0T)._promise = none) ∧
    (¬ ((ScriptTag.load cfg0 true s0T).2._promise = none)) ∧
    ((ScriptTag.load cfg0 false sW).2._promise = some 0) ∧
    ((ScriptTag.fireEvent sW 0 ScriptTag.DomEvent.abort)._promise = sW._promise) := by
  have h := c4_pending_cleared_exactly_on_unload cfg0
  exact ⟨h.1 s0T rfl, h.2.1 s0T true, h.2.2.1 sW false 0 (by decide),
    h.2.2.2 sW 0 ScriptTag.DomEvent.abort⟩

namespace StyleTag

/-- Writing `v` into the element with key `k` makes the first element with
key `k` carry text `v`, provided some element has that key. -/
theorem find_setText (k : Nat) (v : String) :
    ∀ l : List StyleEl, (∃ e ∈ l, e.key = k) →
      ((setTextOn l k v).find? (fun e => e.key == k)).map (fun e => e.text) =
        some v := by
  intro l
  induction l with
  | nil => intro h; rcases h with ⟨e, he, _⟩; cases he
  | cons a t ih =>
    intro h
    by_cases ha : (a.key == k) = true
    · simp only [setTextOn, List.map_cons, ha, if_true]
      rw [List.find?_cons_of_pos _ (by simpa using ha)]
      rfl
    · simp only [setTextOn, List.map_cons, ha, if_false]
      rw [List.find?_cons_of_neg _ (by simpa using ha)]
      rcases h with ⟨e, he, hek⟩
      rcases List.mem_cons.mp he with rfl | het
      · exact absurd (by simp [hek]) ha
      · exact ih ⟨e, het, hek⟩

/-- The first element with key `k`, if any, keeps its key under `setTextOn`. -/
theorem exists_key_of_styleTextOf (s : StyleLoaderState) (k : Nat) (t : String)
    (h : styleTextOf s k = some t) : ∃ e ∈ s.styles, e.key = k := by
  unfold styleTextOf at h
  cases hf : s.styles.find? (fun e => e.key == k) with
  | none => rw [hf] at h; cases h
  | some e =>
    exact ⟨e, List.mem_of_find?_eq_some hf, by simpa using List.find?_some hf⟩

end StyleTag


namespace StyleTag

/-- Characterization of `load` when the element with the configured id is
already in the document and the loader is not yet loaded. -/
theorem load_found (cfg : StyleTagConfig) (s : StyleLoaderState) (el : StyleEl)
    (hdoc : s.hasDoc = true) (hnl : s.isLoaded = false)
    (hq : getElementById s cfg.id = some el) :
    load cfg s =
      { s with
          watcher := some el.key
          styles := setTextOn s.styles el.key s.cssRef
          isLoaded := true } := by
  unfold load
  simp only [hdoc, if_true, hq]
  simp [hnl]

/-- Characterization of `load` when no element with the configured id is in
the document and the loader is not yet loaded: create, configure, append,
then start the watcher with its immediate first write. -/
theorem load_missing (cfg : StyleTagConfig) (s : StyleLoaderState)
    (hdoc : s.hasDoc = true) (hnl : s.isLoaded = false)
    (hq : getElementById s cfg.id = none) :
    load cfg s =
      { s with
          watcher := some s.nextKey
          styles := setTextOn
            (s.styles ++
              [{ key := s.nextKey, domId := cfg.id, text := "",
                 connected := true, nonce := cfg.nonce, media := cfg.media }])
            s.nextKey s.cssRef
          isLoaded := true
          nextKey := s.nextKey + 1 } := by
  unfold load
  simp only [hdoc, if_true, hq]
  simp [hnl]

/-- Characterization of `unload` on a loaded instance with a document. -/
theorem unload_loaded (cfg : StyleTagConfig) (s : StyleLoaderState)
    (hdoc : s.hasDoc = true) (hl : s.isLoaded = true) :
    unload cfg s =
      { s with
          watcher := none
          styles :=
            match s.styles.find? (fun e => e.connected && e.domId == cfg.id) with
            | some el => disconnectStyle s.styles el.key
            | none => s.styles
          isLoaded := false } := by
  unfold unload
  simp only [hdoc, hl, Bool.and_self, if_true, getElementById]
  cases hq : s.styles.find? (fun e => e.connected && e.domId == cfg.id) <;>
    simp [hq]

end StyleTag

/-- Claim C8: for the style-tag loader, `load` installs the watcher and
immediately pushes the current css value into the style element and sets
`isLoaded`; while the watcher is active every change of the css source is
pushed into the watched element; and `unload` stops the watcher, removes
the style element from the document and resets `isLoaded` to false. -/
theorem c8_styletag_watch_and_unload (cfg : StyleTag.StyleTagConfig) :
    (∀ s : StyleTag.StyleLoaderState, s.hasDoc = true → s.isLoaded = false →
      ∃ k, (StyleTag.load cfg s).watcher = some k ∧
        StyleTag.styleTextOf (StyleTag.load cfg s) k = some s.cssRef ∧
        (StyleTag.load cfg s).isLoaded = true) ∧
    (∀ (s : StyleTag.StyleLoaderState) (k : Nat) (v : String),
      s.watcher = some k → StyleTag.styleTextOf s k = some s.cssRef →
        (StyleTag.cssSet v s).cssRef = v ∧
        StyleTag.styleTextOf (StyleTag.cssSet v s) k = some v) ∧
    (∀ s : StyleTag.StyleLoaderState, s.hasDoc = true → s.isLoaded = true →
      s.styles.countP (fun e => e.connected && e.domId == cfg.id) ≤ 1 →
        (StyleTag.unload cfg s).watcher = none ∧
        (StyleTag.unload cfg s).isLoaded = false ∧
        StyleTag.getElementById (StyleTag.unload cfg s) cfg.id = none) := by
  refine ⟨?_, ?_, ?_⟩
  · intro s hdoc hnl
    cases hq : StyleTag.getElementById s cfg.id with
    | some el =>
      rw [StyleTag.load_found cfg s el hdoc hnl hq]
      refine ⟨el.key, rfl, ?_, rfl⟩
      simp only [StyleTag.styleTextOf]
      apply StyleTag.find_setText
      exact ⟨el, List.mem_of_find?_eq_some
        (by simpa [StyleTag.getElementById] using hq), rfl⟩
    | none =>
      rw [StyleTag.load_missing cfg s hdoc hnl hq]
      refine ⟨s.nextKey, rfl, ?_, rfl⟩
      simp only [StyleTag.styleTextOf]
      apply StyleTag.find_setText
      exact ⟨_, List.mem_append_right _ (List.mem_singleton.mpr rfl), rfl⟩
  · intro s k v hw hinv
    by_cases hv : (v == s.cssRef) = true
    · have hveq : v = s.cssRef := by simpa using hv
      unfold StyleTag.cssSet
      rw [if_pos hv]
      exact ⟨hveq.symm, by rw [hinv, hveq]⟩
    · unfold StyleTag.cssSet
      rw [if_neg (by simpa using hv)]
      refine ⟨by simp [hw], ?_⟩
      simp only [hw]
      simp only [StyleTag.styleTextOf]
      apply StyleTag.find_setText
      exact StyleTag.exists_key_of_styleTextOf s k s.cssRef hinv
  · intro s hdoc hl hcount
    rw [StyleTag.unload_loaded cfg s hdoc hl]
    refine ⟨rfl, rfl, ?_⟩
    simp only [StyleTag.getElementById]
    cases hq : s.styles.find? (fun e => e.connected && e.domId == cfg.id) with
    | none => simp only [hq]
    | some el =>
      simp only [hq]
      unfold StyleTag.disconnectStyle
      apply Spec2Proof.find?_map_eq_none_of_unique _ _ s.styles el _ hcount hq
      · by_cases h : (el.key == el.key) = true
        · simp [h]
        · simp at h
      · intro a ha
        by_cases h : (a.key == el.key) = true
        · simp [h]
        · simp [h, ha]

/-- Witness for C8 on closed inputs: load pushes the initial css, an update
is pushed while loaded, and unload detaches and resets. -/
theorem c8_styletag_watch_and_unload_witness :
    (∃ k, (StyleTag.load cfgS sS0).watcher = some k ∧
      StyleTag.styleTextOf (StyleTag.load cfgS sS0) k = some sS0.cssRef ∧
      (StyleTag.load cfgS sS0).isLoaded = true) ∧
    ((StyleTag.cssSet "q color blue" sS1).cssRef = "q color blue" ∧
      StyleTag.styleTextOf (StyleTag.cssSet "q color blue" sS1) 0 =
        some "q color blue") ∧
    ((StyleTag.unload cfgS sS1).watcher = none ∧
      (StyleTag.unload cfgS sS1).isLoaded = false ∧
      StyleTag.getElementById (StyleTag.unload cfgS sS1) cfgS.id = none) := by
  have h := c8_styletag_watch_and_unload cfgS
  exact ⟨h.1 sS0 rfl rfl, h.2.1 sS1 0 "q color blue" (by decide) (by decide),
    h.2.2 sS1 rfl (by decide) (by decide)⟩

/-- Claim C9: on attach the directive registers the handler with
capture-phase dispatch exactly when the `bubble` modifier is absent, and
stores the returned cancellation function on the element; on detach it
invokes exactly that stored cancellation function, so the active
registrations return to the pre-attach set. -/
theorem c9_directive_registers_and_cancels (elId : Nat) (b : ClickOut.Binding)
    (w : ClickOut.World)
    (hfresh : ∀ r ∈ w.regs, r.regId < w.nextRegId) :
    ((ClickOut.mounted elId b w).1.stop = some w.nextRegId) ∧
    (∃ r ∈ (ClickOut.mounted elId b w).2.regs,
      r.regId = w.nextRegId ∧ r.capture = !b.bubble ∧ r.target = elId ∧
      r.handlerId = b.handlerId) ∧
    ((ClickOut.unmounted (ClickOut.mounted elId b w).1
        (ClickOut.mounted elId b w).2).regs = w.regs) := by
  have hchar : ClickOut.mounted elId b w =
      ({ stop := some w.nextRegId },
       { regs := w.regs ++
           [{ regId := w.nextRegId, target := elId, handlerId := b.handlerId,
              capture := !b.bubble, extraOpts := b.opts }]
         nextRegId := w.nextRegId + 1 }) := by
    unfold ClickOut.mounted
    cases hop : b.opts <;> simp [hop, ClickOut.onClickOutside]
  rw [hchar]
  refine ⟨rfl, ?_, ?_⟩
  · exact ⟨_, List.mem_append_right _ (List.mem_singleton.mpr rfl),
      rfl, rfl, rfl, rfl⟩
  · unfold ClickOut.unmounted ClickOut.invokeStop
    simp only []
    rw [List.filter_append]
    have h1 : w.regs.filter (fun r => !(r.regId == w.nextRegId)) = w.regs := by
      rw [List.filter_eq_self]
      intro r hr
      simp only [Bool.not_eq_true']
      simp only [beq_eq_false_iff_ne, ne_eq]
      exact Nat.ne_of_lt (hfresh r hr)
    rw [h1]
    simp

/-- Witness for C9 on closed inputs: mounting with no `bubble` modifier
registers with `capture = true` and stores stop id 0; unmounting removes
exactly that registration. -/
theorem c9_directive_registers_and_cancels_witness :
    ((ClickOut.mounted 5 bC0 wC0).1.stop = some wC0.nextRegId) ∧
    (∃ r ∈ (ClickOut.mounted 5 bC0 wC0).2.regs,
      r.regId = wC0.nextRegId ∧ r.capture = !bC0.bubble ∧ r.target = 5 ∧
      r.handlerId = bC0.handlerId) ∧
    ((ClickOut.unmounted (ClickOut.mounted 5 bC0 wC0).1
        (ClickOut.mounted 5 bC0 wC0).2).regs = wC0.regs) :=
  c9_directive_registers_and_cancels 5 bC0 wC0 (by decide)
